import Mathlib

/-!
Verification development for the `kgwebinar` Flask API (`app/api.py`).

The file shallowly embeds the pure data flow of the API handlers:

* Python `str.strip(chars)` (character-set stripping at both ends),
* Python `str.format(**kwargs)` on templates with named placeholders,
* a subset of `json.loads` (objects, arrays, strings, integers, booleans,
  null) sufficient for the completions the handlers parse,
* the module-level cache (`global_config`, `global_ontology`,
  `global_properties`, `global_classes`) and `initialize_data`,
* the HTTP handlers `execute_query_raw`, `execute_sparql_query`,
  `translate_nl_to_new`, `config` and `load_config`.

External collaborators (the HANA connection, the LLM client, and the
`sql_formatter.format_sql` pretty-printer) are passed in as function-valued
parameters, so every handler is a total function of its inputs and of the
behaviour of those collaborators.
-/

namespace KG

/-- List form of Python's `str.strip(chars)`: drop, from both ends, every
character that occurs in `set` (a character *set*, not a prefix/suffix). -/
def stripChars (set : List Char) (l : List Char) : List Char :=
  ((l.dropWhile (fun c => set.contains c)).reverse.dropWhile
    (fun c => set.contains c)).reverse

/-- Python `s.strip(set)`. -/
def pyStrip (s : String) (set : String) : String :=
  String.mk (stripChars set.data s.data)

/-- Python `s.strip()` (whitespace at both ends). -/
def pyStripWs (s : String) : String :=
  pyStrip s " \t\n\r"

/-- Core of Python's `str.format(**args)` restricted to plain named
placeholders: literal text is copied, `\x7b\x7bname\x7d\x7d`-style doubled
braces produce literal braces, `\x7bname\x7d` is replaced by the value bound
to `name` in `args`.  A referenced name that is not supplied raises
`KeyError`; a lone unmatched brace raises `ValueError`.  Names that are
supplied but never referenced are silently ignored, exactly as in Python. -/
def pyFormatAux (args : List (String × String)) : Nat → List Char → Except String (List Char)
  | 0, _ => .error "RecursionError: format fuel exhausted"
  | Nat.succ _, [] => .ok []
  | Nat.succ f, c :: rest =>
    if c = '\x7b' then
      match rest with
      | '\x7b' :: rest2 => (fun r => '\x7b' :: r) <$> pyFormatAux args f rest2
      | r2 =>
        let name := r2.takeWhile (fun d => d ≠ '\x7d')
        match r2.dropWhile (fun d => d ≠ '\x7d') with
        | [] => .error "ValueError: unterminated replacement field in format string"
        | _ :: after =>
          match List.lookup (String.mk name) args with
          | none => .error ("KeyError: " ++ String.mk name)
          | some v => (fun r => v.data ++ r) <$> pyFormatAux args f after
    else if c = '\x7d' then
      match rest with
      | '\x7d' :: rest2 => (fun r => '\x7d' :: r) <$> pyFormatAux args f rest2
      | _ => .error "ValueError: single closing brace in format string"
    else
      (fun r => c :: r) <$> pyFormatAux args f rest

/-- Python `t.format(**args)` for templates with plain named placeholders.
The fuel `t.data.length + 1` is always sufficient because every step of
`pyFormatAux` consumes at least one character of the template. -/
def pythonFormat (t : String) (args : List (String × String)) : Except String String :=
  (pyFormatAux args (t.data.length + 1) t.data).map String.mk

/-- JSON values, as produced by `json.loads` (numbers restricted to
integers, which covers every completion the handlers parse). -/
inductive Json where
  | null : Json
  | bool (b : Bool) : Json
  | num (n : Int) : Json
  | str (s : String) : Json
  | arr (xs : List Json) : Json
  | obj (fields : List (String × Json)) : Json

/-- Whitespace skipping inside the JSON parser. -/
def skipWs (l : List Char) : List Char :=
  l.dropWhile (fun c => c == ' ' || c == '\n' || c == '\t' || c == '\r')

/-- JSON string-body parser: characters after the opening quote, with the
usual escapes, up to the closing quote. -/
def parseJStringAux (acc : List Char) : List Char → Except String (String × List Char)
  | [] => .error "Unterminated string"
  | '"' :: rest => .ok (String.mk acc.reverse, rest)
  | '\\' :: d :: rest =>
    match d with
    | '"' => parseJStringAux ('"' :: acc) rest
    | '\\' => parseJStringAux ('\\' :: acc) rest
    | '/' => parseJStringAux ('/' :: acc) rest
    | 'n' => parseJStringAux ('\n' :: acc) rest
    | 't' => parseJStringAux ('\t' :: acc) rest
    | 'r' => parseJStringAux ('\r' :: acc) rest
    | _ => .error "Invalid escape"
  | '\\' :: [] => .error "Unterminated string"
  | c :: rest => parseJStringAux (c :: acc) rest

/-- JSON string parser (after the opening quote has been consumed). -/
def parseJString (l : List Char) : Except String (String × List Char) :=
  parseJStringAux [] l

/-- Digit-run parser for integer literals. -/
def parseDigits (l : List Char) : Except String (Nat × List Char) :=
  let ds := l.takeWhile Char.isDigit
  if ds.isEmpty then .error "Expecting value"
  else .ok (ds.foldl (fun a c => a * 10 + (c.toNat - 48)) 0, l.dropWhile Char.isDigit)

/-- Integer literal parser. -/
def parseNumber (l : List Char) : Except String (Int × List Char) :=
  match l with
  | '-' :: rest => (parseDigits rest).map (fun p => (-(p.1 : Int), p.2))
  | _ => (parseDigits l).map (fun p => ((p.1 : Int), p.2))

mutual

/-- Fueled JSON value parser (the fuel models CPython's recursion limit). -/
def parseValue : Nat → List Char → Except String (Json × List Char)
  | 0, _ => .error "RecursionError: maximum parse depth exceeded"
  | Nat.succ f, l =>
    match skipWs l with
    | [] => .error "Expecting value"
    | 'n' :: 'u' :: 'l' :: 'l' :: rest => .ok (.null, rest)
    | 't' :: 'r' :: 'u' :: 'e' :: rest => .ok (.bool true, rest)
    | 'f' :: 'a' :: 'l' :: 's' :: 'e' :: rest => .ok (.bool false, rest)
    | '"' :: rest => (parseJString rest).map (fun p => (Json.str p.1, p.2))
    | '\x7b' :: rest =>
      match skipWs rest with
      | '\x7d' :: rest2 => .ok (.obj [], rest2)
      | l2 => (parseMembers f l2).map (fun p => (Json.obj p.1, p.2))
    | '[' :: rest =>
      match skipWs rest with
      | ']' :: rest2 => .ok (.arr [], rest2)
      | l2 => (parseItems f l2).map (fun p => (Json.arr p.1, p.2))
    | c :: rest =>
      if c.isDigit || c == '-' then
        (parseNumber (c :: rest)).map (fun p => (Json.num p.1, p.2))
      else .error "Expecting value"

/-- Object-member list parser (positioned at a key's opening quote). -/
def parseMembers : Nat → List Char → Except String (List (String × Json) × List Char)
  | 0, _ => .error "RecursionError: maximum parse depth exceeded"
  | Nat.succ f, l =>
    match l with
    | '"' :: rest =>
      match parseJString rest with
      | .error e => .error e
      | .ok (k, rest2) =>
        match skipWs rest2 with
        | ':' :: rest3 =>
          match parseValue f rest3 with
          | .error e => .error e
          | .ok (v, rest4) =>
            match skipWs rest4 with
            | ',' :: rest5 => (parseMembers f (skipWs rest5)).map
                (fun p => ((k, v) :: p.1, p.2))
            | '\x7d' :: rest5 => .ok ([(k, v)], rest5)
            | _ => .error "Expecting comma delimiter"
        | _ => .error "Expecting colon delimiter"
    | _ => .error "Expecting property name enclosed in double quotes"

/-- Array-item list parser. -/
def parseItems : Nat → List Char → Except String (List Json × List Char)
  | 0, _ => .error "RecursionError: maximum parse depth exceeded"
  | Nat.succ f, l =>
    match parseValue f l with
    | .error e => .error e
    | .ok (v, rest) =>
      match skipWs rest with
      | ',' :: rest2 => (parseItems f rest2).map (fun p => (v :: p.1, p.2))
      | ']' :: rest2 => .ok ([v], rest2)
      | _ => .error "Expecting comma delimiter"

end

/-- Python `json.loads`: parse one value and require only whitespace to
follow it. -/
def jsonLoads (s : String) : Except String Json :=
  match parseValue 1000 s.data with
  | .error e => .error e
  | .ok (j, rest) => if (skipWs rest).isEmpty then .ok j else .error "Extra data"

/-- Python truthiness (`if not x`) for the JSON values a request body can
hold. -/
def jsonTruthy : Json → Bool
  | .null => false
  | .bool b => b
  | .num n => n != 0
  | .str s => s != ""
  | .arr xs => !xs.isEmpty
  | .obj fs => !fs.isEmpty

/-- Python `str(x)` for a JSON value, as used when a value is substituted
into a template (container reprs are abbreviated; the handlers only ever
substitute strings). -/
def pyToStr : Json → String
  | .null => "None"
  | .bool true => "True"
  | .bool false => "False"
  | .num n => toString n
  | .str s => s
  | .arr _ => "[...]"
  | .obj _ => "\x7b...\x7d"

/-- Python `str(x)` for an optional value: `None` prints as `"None"`. -/
def optStr : Option String → String
  | none => "None"
  | some s => s

/-- The single `ONTOLOGY_CONFIG` row: the twelve columns read by
`initialize_data` and `/config` GET and written by `/config` POST.  Each
column is nullable. -/
structure ConfigRecord where
  ontology_query : Option String
  property_query : Option String
  classes_query : Option String
  instructions : Option String
  prefixes : Option String
  graph : Option String
  graph_inferred : Option String
  query_example : Option String
  template : Option String
  query_template : Option String
  query_template_no_topic : Option String
  template_similarity : Option String
deriving DecidableEq

/-- The module-level mutable cache: `global_config` (`none` models the
initial empty dict), `global_ontology`, `global_properties`,
`global_classes`. -/
structure AppState where
  global_config : Option ConfigRecord
  global_ontology : Option String
  global_properties : Option String
  global_classes : Option String
deriving DecidableEq

/-- The tuple returned by `cursor.callproc('SPARQL_EXECUTE', (query,
mediaType, '?', '?'))`: the input parameters echoed back at indices 0 and 1
and the two output parameters at indices 2 and 3 (the result set is index
2). -/
structure CallResult where
  p0 : String
  p1 : String
  p2 : String
  p3 : String
deriving DecidableEq

/-- Behaviour of the HANA connection as observed by `initialize_data`:
the `ONTOLOGY_CONFIG` row fetch, and the `SPARQL_EXECUTE` procedure as a
function of (query, result media type) returning the result-set output
parameter or failing. -/
structure StoreDB where
  configRow : Except String ConfigRecord
  sparql : String → String → Except String String

/-- Result media type for CSV result sets. -/
def csvMime : String := "application/sparql-results+csv"

/-- Result media type for JSON result sets. -/
def jsonMime : String := "application/sparql-results+json"

/-- Embedding of `initialize_data` (lines 44-86).  The whole body runs in a
`try` whose `except` only prints, so the function always returns; the
globals are mutated one at a time as each step succeeds.  The second
component is the trace of `SPARQL_EXECUTE` calls that were issued, in
order.  Note line 82: `global_classes = result[0]` takes index 0 of the
`callproc` tuple (the input query string), unlike lines 74 and 78 which
take index 2 (the result set). -/
def initData (db : StoreDB) (st : AppState) : AppState × List (String × String) :=
  match db.configRow with
  | .error _ => (st, [])
  | .ok cfg =>
    let st1 := { st with global_config := some cfg }
    match cfg.ontology_query with
    | none => (st1, [])
    | some oq =>
      match db.sparql oq csvMime with
      | .error _ => (st1, [(oq, csvMime)])
      | .ok out1 =>
        let result1 : CallResult := ⟨oq, csvMime, out1, ""⟩
        let st2 := { st1 with global_ontology := some result1.p2 }
        match cfg.property_query with
        | none => (st2, [(oq, csvMime)])
        | some pq =>
          match db.sparql pq jsonMime with
          | .error _ => (st2, [(oq, csvMime), (pq, jsonMime)])
          | .ok out2 =>
            let result2 : CallResult := ⟨pq, jsonMime, out2, ""⟩
            let st3 := { st2 with global_properties := some result2.p2 }
            match cfg.classes_query with
            | none => (st3, [(oq, csvMime), (pq, jsonMime)])
            | some cq =>
              match db.sparql cq jsonMime with
              | .error _ => (st3, [(oq, csvMime), (pq, jsonMime), (cq, jsonMime)])
              | .ok out3 =>
                let result3 : CallResult := ⟨cq, jsonMime, out3, ""⟩
                ({ st3 with global_classes := some result3.p0 },
                 [(oq, csvMime), (pq, jsonMime), (cq, jsonMime)])

/-- Bodies of the HTTP responses the handlers can produce. -/
inductive RespBody where
  | errorBody (msg : String)
  | errorWithQuery (msg finalQuery : String)
  | resultBody (rows finalQuery : String)
  | sparqlBody (q : String)
  | messageBody (m : String)
  | configBody (c : ConfigRecord)
  | jsonBody (j : Json)
  | csvBody (s : String)
  | textBody (s : String)

/-- Outcome of one HTTP request: either a response produced by the handler,
or an exception that escaped the handler (Flask then returns a 500 error
page, not the handler's JSON error shape). -/
inductive Outcome where
  | resp (status : Nat) (body : RespBody)
  | unhandled (msg : String)

/-- External collaborators of `translate_nl_to_new`: the two LLM chains
(as functions from the rendered prompt to the completion text), the
`cursor.execute`/`fetchall` of the final statement, and the external
`sql_formatter.core.format_sql` pretty-printer. -/
structure TranslateEnv where
  topicLLM : String → String
  sparqlLLM : String → String
  execSQL : String → Except String String
  format_sql : String → String

/-- One run of `translate_nl_to_new`: the HTTP outcome, the prompts sent to
the LLM (in order), and the statements executed against the store (in
order). -/
structure RunResult where
  outcome : Outcome
  llmCalls : List String
  execCalls : List String

/-- Python `topic != "None"` is false exactly when the parsed value is the
string `"None"`. -/
def isNoneStr : Json → Bool
  | .str s => s == "None"
  | _ => false

/-- Embedding of lines 222-230: strip the code-fence characters from both
ends of the completion (`.strip('```python\n').strip('\n```')` — character
*sets*, per Python semantics), `json.loads` the remainder, and read the
`topic` and `query` keys. -/
def topicStage (completion : String) : Except String (Json × Json) :=
  let stripped := pyStrip (pyStrip completion "```python\n") "\n```"
  match jsonLoads stripped with
  | .error e => .error e
  | .ok (Json.obj fields) =>
    match List.lookup "topic" fields with
    | none => .error "KeyError: topic"
    | some topicJ =>
      match List.lookup "query" fields with
      | none => .error "KeyError: query"
      | some queryJ => .ok (topicJ, queryJ)
  | .ok _ => .error "TypeError: json value is not subscriptable"

/-- Embedding of lines 256-259: choose the outer template by the topic
value, substitute, and apply `format_sql` (in the topic-bearing branch
only, exactly as the source does). -/
def composeFinal (format_sql : String → String)
    (query_template query_template_no_topic : Option String)
    (generated : String) (topic : Json) : Except String String :=
  if isNoneStr topic = false then
    match query_template with
    | none => .error "AttributeError: NoneType object has no attribute format"
    | some qt =>
      Except.map format_sql
        (pythonFormat qt [("generated_sparql_query", generated), ("topic", pyToStr topic)])
  else
    match query_template_no_topic with
    | none => .error "AttributeError: NoneType object has no attribute format"
    | some qtnt => pythonFormat qtnt [("generated_sparql_query", generated)]

/-- Which outer template the composer uses, as a function of the topic. -/
def selectedTemplate (query_template query_template_no_topic : Option String)
    (topic : Json) : Option String :=
  if isNoneStr topic = false then query_template else query_template_no_topic

/-- The nine substitutions fed to the SPARQL-generation prompt template
(line 242): the rewritten query from the topic stage plus the cached
ontology context and configured fields (`str(None)` is `"None"` for any
missing value). -/
def sparqlBindings (st : AppState) (cfg : ConfigRecord) (rewritten : Json) :
    List (String × String) :=
  [("nl_query", pyToStr rewritten),
   ("classes", optStr st.global_classes),
   ("properties", optStr st.global_properties),
   ("ontology", optStr st.global_ontology),
   ("graph", optStr cfg.graph),
   ("graph_inferred", optStr cfg.graph_inferred),
   ("prefixes", optStr cfg.prefixes),
   ("query_example", optStr cfg.query_example),
   ("instructions", optStr cfg.instructions)]

/-- Embedding of the `translate_nl_to_new` handler (lines 186-276).  The
body runs in a `try` whose `except` returns
`jsonify(\x7b'error': str(e), 'final_query': final_query\x7d), 400`;
because `final_query` is only assigned at lines 257/259, an exception
raised *before* composition makes the `except` block itself raise
`UnboundLocalError`, i.e. the failure escapes the handler (`.unhandled`).
`body? = none` models `request.get_json()` raising on a non-JSON body. -/
def translate_nl_to_new (env : TranslateEnv) (st : AppState)
    (body? : Option (List (String × Json))) : RunResult :=
  match body? with
  | none => ⟨.unhandled "BadRequest: request body is not valid JSON", [], []⟩
  | some data =>
    match List.lookup "nl_query" data with
    | none => ⟨.resp 400 (.errorBody "Natural language query required"), [], []⟩
    | some nlJ =>
      if jsonTruthy nlJ = false then
        ⟨.resp 400 (.errorBody "Natural language query required"), [], []⟩
      else
        match st.global_config with
        | none => ⟨.unhandled "ValidationError: prompt template must be a string", [], []⟩
        | some cfg =>
          match cfg.template_similarity with
          | none => ⟨.unhandled "ValidationError: prompt template must be a string", [], []⟩
          | some ts =>
            match pythonFormat ts [("question", pyToStr nlJ)] with
            | .error e => ⟨.unhandled e, [], []⟩
            | .ok topicPrompt =>
              match topicStage (env.topicLLM topicPrompt) with
              | .error e => ⟨.unhandled e, [topicPrompt], []⟩
              | .ok (topicJ, queryJ) =>
                match cfg.template with
                | none =>
                  ⟨.unhandled "ValidationError: prompt template must be a string",
                   [topicPrompt], []⟩
                | some tpl =>
                  match pythonFormat tpl (sparqlBindings st cfg queryJ) with
                  | .error e => ⟨.unhandled e, [topicPrompt], []⟩
                  | .ok sparqlPrompt =>
                    let generated := pyStripWs (env.sparqlLLM sparqlPrompt)
                    match composeFinal env.format_sql cfg.query_template
                        cfg.query_template_no_topic generated topicJ with
                    | .error e => ⟨.unhandled e, [topicPrompt, sparqlPrompt], []⟩
                    | .ok finalQuery =>
                      match env.execSQL finalQuery with
                      | .error e =>
                        ⟨.resp 400 (.errorWithQuery e finalQuery),
                         [topicPrompt, sparqlPrompt], [finalQuery]⟩
                      | .ok rows =>
                        ⟨.resp 200 (.resultBody rows finalQuery),
                         [topicPrompt, sparqlPrompt], [finalQuery]⟩

/-- Embedding of the `execute_query_raw` handler (lines 88-111).  `store`
is `SPARQL_EXECUTE` as a function of (query, result media type); `body` is
the decoded request body; `fmtParam` is the `format` query parameter
(defaulted to `"json"` when absent). -/
def execute_query_raw (store : String → String → Except String String)
    (body : String) (fmtParam : Option String) : Outcome :=
  let response_format := fmtParam.getD "json"
  if body = "" then .resp 400 (.errorBody "Query is required")
  else if response_format = "csv" then
    match store body csvMime with
    | .error e => .resp 400 (.errorBody e)
    | .ok out => .resp 200 (.csvBody out)
  else
    match store body jsonMime with
    | .error e => .resp 400 (.errorBody e)
    | .ok out =>
      match jsonLoads out with
      | .error e => .resp 400 (.errorBody e)
      | .ok j => .resp 200 (.jsonBody j)

/-- Embedding of the `execute_sparql_query` handler (lines 113-134): same
contract as `execute_query_raw` but with the query taken from the `query`
URL argument. -/
def execute_sparql_query (store : String → String → Except String String)
    (queryParam : Option String) (fmtParam : Option String) : Outcome :=
  let q := queryParam.getD ""
  let response_format := fmtParam.getD "json"
  if q = "" then .resp 400 (.errorBody "Query is required")
  else if response_format = "csv" then
    match store q csvMime with
    | .error e => .resp 400 (.errorBody e)
    | .ok out => .resp 200 (.csvBody out)
  else
    match store q jsonMime with
    | .error e => .resp 400 (.errorBody e)
    | .ok out =>
      match jsonLoads out with
      | .error e => .resp 400 (.errorBody e)
      | .ok j => .resp 200 (.jsonBody j)

/-- A `/config` request: GET, or POST with the parsed JSON body (`none`
models `request.get_json()` raising). -/
inductive ConfigReq where
  | get : ConfigReq
  | post (body : Option (List (String × Json))) : ConfigReq

/-- Value written to a nullable column from `data.get(k)`: absent keys and
JSON `null` become SQL NULL; strings are stored as given. -/
def dbVal (body : List (String × Json)) (k : String) : Option String :=
  match List.lookup k body with
  | none => none
  | some Json.null => none
  | some (Json.str s) => some s
  | some j => some (pyToStr j)

/-- The row written by the `/config` POST `UPDATE`: every one of the twelve
columns is set from the request body (no partial-field merge). -/
def recordOfBody (body : List (String × Json)) : ConfigRecord :=
  ⟨dbVal body "ontology_query", dbVal body "property_query",
   dbVal body "classes_query", dbVal body "instructions",
   dbVal body "prefixes", dbVal body "graph",
   dbVal body "graph_inferred", dbVal body "query_example",
   dbVal body "template", dbVal body "query_template",
   dbVal body "query_template_no_topic", dbVal body "template_similarity"⟩

/-- Embedding of the `config` handler (lines 278-333).  The handler has no
`try`/`except`, so a failing cursor (modelled by `db = .error e`) escapes
as an unhandled exception.  The state is the single `ONTOLOGY_CONFIG` row;
POST overwrites it wholesale and GET returns it. -/
def config_handler (db : Except String ConfigRecord) (req : ConfigReq) :
    Except String ConfigRecord × Outcome :=
  match req with
  | .post body? =>
    match body? with
    | none => (db, .unhandled "BadRequest: request body is not valid JSON")
    | some body =>
      match db with
      | .error e => (db, .unhandled e)
      | .ok _ =>
        (.ok (recordOfBody body),
         .resp 200 (.messageBody "Configuration updated successfully"))
  | .get =>
    match db with
    | .error e => (db, .unhandled e)
    | .ok row => (db, .resp 200 (.configBody row))

/-- Embedding of the `load_config` handler (lines 335-341): it calls
`initialize_data()` — which catches every exception internally and only
prints it — and then returns the success message, so the 200 branch is
taken unconditionally. -/
def load_config_handler (db : StoreDB) (st : AppState) : AppState × Outcome :=
  ((initData db st).1,
   .resp 200 (.messageBody "Configuration and data loaded successfully"))

/-! Concrete fixtures used by the witnesses and counterexamples below. -/

/-- Substring test (used to state that a statement does not embed the
generated query). -/
def strContains (hay needle : String) : Bool :=
  hay.data.tails.any (fun t => needle.data.isPrefixOf t)

/-- A loaded configuration row with well-formed templates. -/
def cfgC : ConfigRecord :=
  ⟨some "OQ", some "PQ", some "CQ", some "be terse", some "PREFIX ex:",
   some "G", some "GI", some "EXQ", some "Generate: \x7bnl_query\x7d",
   some "SELECT \x7btopic\x7d AS T, Q(\x7bgenerated_sparql_query\x7d)",
   some "CALL OUTER()", some "Classify: \x7bquestion\x7d"⟩

/-- A warmed cache holding `cfgC` and ontology context. -/
def stC : AppState := ⟨some cfgC, some "ONT", some "PROPS", some "CLS"⟩

/-- A request body carrying a non-empty `nl_query`. -/
def bodyC : List (String × Json) := [("nl_query", Json.str "list partners")]

/-- A marking pretty-printer (visibly not the identity). -/
def fmtW : String → String := fun s => "FMT:" ++ s

/-- Collaborators for a run whose topic classification yields `"None"`. -/
def envNone : TranslateEnv :=
  ⟨fun _ => "\x7b\"topic\": \"None\", \"query\": \"rewritten\"\x7d",
   fun _ => " GENQ ", fun _ => .ok "[[1]]", fmtW⟩

/-- Collaborators for a run whose topic classification yields `"Sales"`. -/
def envTopic : TranslateEnv :=
  ⟨fun _ => "\x7b\"topic\": \"Sales\", \"query\": \"rewritten\"\x7d",
   fun _ => " GENQ ", fun _ => .ok "[[1]]", fmtW⟩

/-- Collaborators whose topic-classification completion is not JSON. -/
def envBad : TranslateEnv :=
  ⟨fun _ => "I cannot classify that.",
   fun _ => " GENQ ", fun _ => .ok "[[1]]", fmtW⟩

/-- Like `cfgC` but the no-topic outer template references a placeholder
the composer does not supply. -/
def cfgK : ConfigRecord :=
  { cfgC with query_template_no_topic := some "X \x7bmissing_name\x7d Y" }

/-- A warmed cache holding `cfgK`. -/
def stK : AppState := ⟨some cfgK, some "ONT", some "PROPS", some "CLS"⟩

/-- Configuration row for the cache-load scenarios. -/
def cfg0 : ConfigRecord :=
  ⟨some "OQ", some "PQ", some "CQ", none, none, none, none, none, none,
   none, none, none⟩

/-- A previously warmed cache (old context values). -/
def st0 : AppState := ⟨none, some "OLDONT", some "OLDPROPS", some "OLDCLS"⟩

/-- A store where the ontology dump succeeds but every later query fails. -/
def dbPartial : StoreDB :=
  ⟨.ok cfg0, fun q _ => if q = "OQ" then .ok "NEWONT" else .error "store unreachable"⟩

/-- A store where all three context queries succeed. -/
def dbFull : StoreDB :=
  ⟨.ok cfg0,
   fun q _ =>
     if q = "OQ" then .ok "ONTRES"
     else if q = "PQ" then .ok "PROPRES"
     else if q = "CQ" then .ok "CLSRES"
     else .error "no such query"⟩

/-- A store answering JSON-media-type executions with `[1]`. -/
def storeW : String → String → Except String String :=
  fun _ mt => if mt = jsonMime then .ok "[1]" else .error "csv was not requested"

/-! Helper lemmas. -/

/-- Formatting a brace-free template succeeds and returns it unchanged,
whatever substitutions are supplied: `str.format` silently ignores unused
keyword arguments. -/
theorem pyFormatAux_no_braces (args : List (String × String)) :
    ∀ (l : List Char) (f : Nat), l.length < f → '\x7b' ∉ l → '\x7d' ∉ l →
      pyFormatAux args f l = .ok l := by
  intro l
  induction l with
  | nil =>
    intro f hf _ _
    cases f with
    | zero => omega
    | succ f => rfl
  | cons c rest ih =>
    intro f hf h1 h2
    cases f with
    | zero => omega
    | succ f =>
      have hc1 : ¬(c = '\x7b') := by
        intro h
        exact h1 (h ▸ List.mem_cons_self c rest)
      have hc2 : ¬(c = '\x7d') := by
        intro h
        exact h2 (h ▸ List.mem_cons_self c rest)
      have hr1 : '\x7b' ∉ rest := fun h => h1 (List.mem_cons_of_mem _ h)
      have hr2 : '\x7d' ∉ rest := fun h => h2 (List.mem_cons_of_mem _ h)
      have hrec := ih f (by simp at hf ⊢; omega) hr1 hr2
      simp [pyFormatAux, hc1, hc2, hrec]

/-- String-level version of `pyFormatAux_no_braces`. -/
theorem pythonFormat_no_braces (t : String) (args : List (String × String))
    (h1 : '\x7b' ∉ t.data) (h2 : '\x7d' ∉ t.data) :
    pythonFormat t args = .ok t := by
  unfold pythonFormat
  rw [pyFormatAux_no_braces args t.data (t.data.length + 1) (by omega) h1 h2]
  rfl

/-- Stripping a character set that touches neither end of a list leaves the
list unchanged. -/
theorem stripChars_inert (set : List Char) (s r1 r2 : List Char) (a b : Char)
    (hh : s = a :: r1) (hl : s.reverse = b :: r2)
    (ha : set.contains a = false) (hb : set.contains b = false) :
    stripChars set s = s := by
  unfold stripChars
  have e1 : List.dropWhile (fun c => set.contains c) s = s := by
    rw [hh, List.dropWhile_cons]
    simp only [ha, Bool.false_eq_true, if_false]
  have e2 : List.dropWhile (fun c => set.contains c) s.reverse = s.reverse := by
    rw [hl, List.dropWhile_cons]
    simp only [hb, Bool.false_eq_true, if_false]
  rw [e1, e2, List.reverse_reverse]

/-- Stripping the `'```python\n'` character set removes a surrounding
`python` code fence from a JSON-object payload (first character `\x7b`,
last character `\x7d`) in one pass: the trailing fence consists of newline
and backtick characters, which are members of the same set. -/
theorem stripFence_list (s r1 r2 : List Char)
    (hh : s = '\x7b' :: r1) (hl : s.reverse = '\x7d' :: r2) :
    stripChars "```python\n".data ("```python\n".data ++ (s ++ "\n```".data)) = s := by
  unfold stripChars
  have e1 : List.dropWhile (fun c => ("```python\n".data).contains c) "```python\n".data
      = [] := by decide
  have e2 : List.dropWhile (fun c => ("```python\n".data).contains c) s = s := by
    rw [hh, List.dropWhile_cons]
    have hb : ("```python\n".data).contains '\x7b' = false := by decide
    simp only [hb, Bool.false_eq_true, if_false]
  have e3 : List.dropWhile (fun c => ("```python\n".data).contains c) ("\n```".data.reverse)
      = [] := by decide
  have e4 : List.dropWhile (fun c => ("```python\n".data).contains c) s.reverse
      = s.reverse := by
    rw [hl, List.dropWhile_cons]
    have hb : ("```python\n".data).contains '\x7d' = false := by decide
    simp only [hb, Bool.false_eq_true, if_false]
  have hne : s.isEmpty = false := by rw [hh]; rfl
  rw [List.dropWhile_append, e1]
  simp only [List.isEmpty_nil, if_true]
  rw [List.dropWhile_append, e2]
  simp only [hne, Bool.false_eq_true, if_false]
  rw [List.reverse_append, List.dropWhile_append, e3]
  simp only [List.isEmpty_nil, if_true]
  rw [e4, List.reverse_reverse]

/-- The two `strip` calls of line 223 unwrap a `python` code fence exactly:
for a JSON-object payload (first character `\x7b`, last character `\x7d`)
wrapped as a ```` ```python ```` fence, stripping returns the payload. -/
theorem stripFence_wrapped (s : String)
    (hh : s.data.head? = some '\x7b') (hl : s.data.getLast? = some '\x7d') :
    pyStrip (pyStrip ("```python\n" ++ s ++ "\n```") "```python\n") "\n```" = s := by
  obtain ⟨r1, hr1⟩ : ∃ r1, s.data = '\x7b' :: r1 := by
    cases h : s.data with
    | nil => rw [h] at hh; simp at hh
    | cons a t =>
      rw [h] at hh
      simp at hh
      exact ⟨t, by rw [hh]⟩
  obtain ⟨r2, hr2⟩ : ∃ r2, s.data.reverse = '\x7d' :: r2 := by
    cases h : s.data.reverse with
    | nil =>
      have h0 : s.data = [] := by simpa using congrArg List.reverse h
      rw [h0] at hl
      simp at hl
    | cons a t =>
      have ha : s.data.getLast? = some a := by
        rw [← List.head?_reverse, h]
        rfl
      rw [hl] at ha
      simp at ha
      exact ⟨t, by rw [ha]⟩
  have hdata : ("```python\n" ++ s ++ "\n```").data =
      "```python\n".data ++ (s.data ++ "\n```".data) := by
    rw [String.data_append, String.data_append, List.append_assoc]
  show String.mk (stripChars "\n```".data
    (String.mk (stripChars "```python\n".data
      ("```python\n" ++ s ++ "\n```").data)).data) = s
  rw [hdata, stripFence_list s.data r1 r2 hr1 hr2]
  show String.mk (stripChars "\n```".data s.data) = s
  rw [stripChars_inert "\n```".data s.data r1 r2 '\x7b' '\x7d' hr1 hr2
    (by decide) (by decide)]

/-! Claim theorems. -/

/-- C1 (status: code_bug): the claim says every failure in any endpoint
becomes a uniform 400 `\x7b"error": ...\x7d` body.  In the code, a failure
in `/translate_nl_to_new` before the final statement is built makes the
`except` block itself evaluate the unbound local `final_query`, so the
failure escapes unhandled; `/config` has no `try`/`except` at all, so a
cursor failure escapes unhandled on both GET and POST. -/
theorem api_failures_escape_unhandled :
    (translate_nl_to_new envBad stC (some bodyC)).outcome =
      .unhandled "Expecting value" ∧
    config_handler (.error "connection to HANA lost") ConfigReq.get =
      (.error "connection to HANA lost", .unhandled "connection to HANA lost") ∧
    config_handler (.error "connection to HANA lost") (.post (some bodyC)) =
      (.error "connection to HANA lost", .unhandled "connection to HANA lost") :=
  ⟨rfl, rfl, rfl⟩

/-- C4 (status: confirmed): the composer uses `query_template` exactly when
the topic differs from `"None"` and `query_template_no_topic` otherwise;
the selection is a function of the topic alone, the topic-bearing branch
substitutes both the generated query and the topic, and the no-topic
branch substitutes only the generated query. -/
theorem queryComposer_selects_by_topic (format_sql : String → String)
    (qt qtnt generated : String) (topic : Json) :
    (isNoneStr topic = false →
      selectedTemplate (some qt) (some qtnt) topic = some qt ∧
      composeFinal format_sql (some qt) (some qtnt) generated topic =
        Except.map format_sql
          (pythonFormat qt
            [("generated_sparql_query", generated), ("topic", pyToStr topic)])) ∧
    (isNoneStr topic = true →
      selectedTemplate (some qt) (some qtnt) topic = some qtnt ∧
      composeFinal format_sql (some qt) (some qtnt) generated topic =
        pythonFormat qtnt [("generated_sparql_query", generated)]) := by
  constructor <;> intro h <;> simp [selectedTemplate, composeFinal, h]

/-- Witness for C4 at the topics `"Sales"` and `"None"`. -/
theorem queryComposer_selects_by_topic_witness :
    selectedTemplate (some "QT") (some "QNT") (Json.str "Sales") = some "QT" ∧
    selectedTemplate (some "QT") (some "QNT") (Json.str "None") = some "QNT" :=
  ⟨((queryComposer_selects_by_topic fmtW "QT" "QNT" "G" (Json.str "Sales")).1
      (by decide)).1,
   ((queryComposer_selects_by_topic fmtW "QT" "QNT" "G" (Json.str "None")).2
      (by decide)).1⟩

/-- C8 (status: confirmed): a `/config` POST carrying all twelve fields
overwrites the whole single-row record regardless of its prior value, and
the following `/config` GET returns exactly the fields just written. -/
theorem config_roundtrip
    (s1 s2 s3 s4 s5 s6 s7 s8 s9 s10 s11 s12 : String) (row : ConfigRecord) :
    (config_handler (.ok row) (.post (some
      [("ontology_query", .str s1), ("property_query", .str s2),
       ("classes_query", .str s3), ("instructions", .str s4),
       ("prefixes", .str s5), ("graph", .str s6),
       ("graph_inferred", .str s7), ("query_example", .str s8),
       ("template", .str s9), ("query_template", .str s10),
       ("query_template_no_topic", .str s11),
       ("template_similarity", .str s12)]))).2 =
      .resp 200 (.messageBody "Configuration updated successfully") ∧
    (config_handler
      (config_handler (.ok row) (.post (some
        [("ontology_query", .str s1), ("property_query", .str s2),
         ("classes_query", .str s3), ("instructions", .str s4),
         ("prefixes", .str s5), ("graph", .str s6),
         ("graph_inferred", .str s7), ("query_example", .str s8),
         ("template", .str s9), ("query_template", .str s10),
         ("query_template_no_topic", .str s11),
         ("template_similarity", .str s12)]))).1 ConfigReq.get).2 =
      .resp 200 (.configBody
        ⟨some s1, some s2, some s3, some s4, some s5, some s6, some s7,
         some s8, some s9, some s10, some s11, some s12⟩) :=
  ⟨rfl, rfl⟩

/-- C9 (status: confirmed): `/load_config` answers 200 with the success
message for every store behaviour and every prior cache state, because
`initialize_data` catches every exception internally and only prints it. -/
theorem load_config_always_succeeds (db : StoreDB) (st : AppState) :
    (load_config_handler db st).2 =
      .resp 200 (.messageBody "Configuration and data loaded successfully") :=
  rfl

/-- C10 (status: confirmed): on both execution endpoints, any `format`
value other than the exact string `"csv"` — including an absent parameter
— takes the JSON branch: the store is called with the JSON result media
type and the parsed result is returned with status 200. -/
theorem executor_defaults_to_json (store : String → String → Except String String)
    (q : String) (fmtParam : Option String) (out : String) (j : Json)
    (hq : q ≠ "")
    (hfmt : fmtParam.getD "json" ≠ "csv")
    (hstore : store q jsonMime = .ok out)
    (hparse : jsonLoads out = .ok j) :
    execute_query_raw store q fmtParam = .resp 200 (.jsonBody j) ∧
    execute_sparql_query store (some q) fmtParam = .resp 200 (.jsonBody j) := by
  constructor <;>
    simp [execute_query_raw, execute_sparql_query, hq, hfmt, hstore, hparse]

/-- Witness for C10 with the unrecognized format value `"xml"`. -/
theorem executor_defaults_to_json_witness :
    execute_query_raw storeW "ASK" (some "xml") =
      .resp 200 (.jsonBody (.arr [.num 1])) ∧
    execute_sparql_query storeW (some "ASK") (some "xml") =
      .resp 200 (.jsonBody (.arr [.num 1])) :=
  executor_defaults_to_json storeW "ASK" (some "xml") "[1]" (.arr [.num 1])
    (by decide) (by decide) rfl rfl

/-- C2 counterexample: with a previously warmed cache, a load whose
property-list execution fails still overwrites `global_ontology` with the
fresh value, so the previously cached ontology does *not* remain in effect
and the context is partially updated. -/
theorem initData_partial_update_cex :
    dbPartial.sparql "PQ" jsonMime = .error "store unreachable" ∧
    (initData dbPartial st0).1.global_ontology = some "NEWONT" ∧
    (initData dbPartial st0).1.global_properties = some "OLDPROPS" ∧
    st0.global_ontology = some "OLDONT" ∧
    ("NEWONT" : String) ≠ "OLDONT" :=
  ⟨rfl, rfl, rfl, rfl, by decide⟩

/-- C2 (status: corrected): `initialize_data` mutates the cache one field
at a time in execution order; when the property-list execution fails, the
configuration and ontology fields already hold the new values while the
property and class fields keep their prior values, and only a fully
successful run updates every field (the class field then holding the
echoed query text, see C6). -/
theorem initData_sequential_update (db : StoreDB) (st : AppState)
    (cfg : ConfigRecord) (oq pq cq out1 out2 out3 e : String)
    (h1 : db.configRow = .ok cfg)
    (h2 : cfg.ontology_query = some oq)
    (h3 : db.sparql oq csvMime = .ok out1)
    (h4 : cfg.property_query = some pq) :
    (db.sparql pq jsonMime = .error e →
      initData db st =
        ({ st with global_config := some cfg, global_ontology := some out1 },
         [(oq, csvMime), (pq, jsonMime)])) ∧
    (db.sparql pq jsonMime = .ok out2 →
      cfg.classes_query = some cq →
      db.sparql cq jsonMime = .ok out3 →
      initData db st =
        (⟨some cfg, some out1, some out2, some cq⟩,
         [(oq, csvMime), (pq, jsonMime), (cq, jsonMime)])) := by
  constructor
  · intro h5
    simp [initData, h1, h2, h3, h4, h5]
  · intro h5 h6 h7
    simp [initData, h1, h2, h3, h4, h5, h6, h7]

/-- Witness for C2 on the concrete partially failing and fully succeeding
stores. -/
theorem initData_sequential_update_witness :
    initData dbPartial st0 =
      ({ st0 with global_config := some cfg0, global_ontology := some "NEWONT" },
       [("OQ", csvMime), ("PQ", jsonMime)]) ∧
    initData dbFull st0 =
      (⟨some cfg0, some "ONTRES", some "PROPRES", some "CQ"⟩,
       [("OQ", csvMime), ("PQ", jsonMime), ("CQ", jsonMime)]) :=
  ⟨(initData_sequential_update dbPartial st0 cfg0 "OQ" "PQ" "CQ" "NEWONT" "x" "y"
      "store unreachable" rfl rfl rfl rfl).1 rfl,
   (initData_sequential_update dbFull st0 cfg0 "OQ" "PQ" "CQ" "ONTRES" "PROPRES"
      "CLSRES" "e" rfl rfl rfl rfl).2 rfl rfl rfl⟩

/-- C3 counterexample: with a no-topic outer template that contains no
substitution placeholder at all, composition succeeds (Python `format`
silently ignores unused keyword arguments), the statement is executed
against the store, and the executed statement does not embed the generated
SPARQL `GENQ` — no error of any kind is raised. -/
theorem compose_missing_placeholder_cex :
    (translate_nl_to_new envNone stC (some bodyC)).outcome =
      .resp 200 (.resultBody "[[1]]" "CALL OUTER()") ∧
    (translate_nl_to_new envNone stC (some bodyC)).execCalls = ["CALL OUTER()"] ∧
    pyStripWs (envNone.sparqlLLM "Generate: rewritten") = "GENQ" ∧
    strContains "CALL OUTER()" "GENQ" = false :=
  ⟨rfl, rfl, rfl, by decide⟩

/-- C3 (status: corrected): a template lacking the generated-query
placeholder formats successfully and unchanged (so the statement executes
without the generated SPARQL embedded); an error arises only when the
template references a placeholder the composer does not supply, and in
that case no statement is executed — the failure escapes the handler
unhandled (there is no `TemplateMismatchError` in the code). -/
theorem compose_missing_placeholder_behavior :
    (∀ (t : String) (args : List (String × String)),
        '\x7b' ∉ t.data → '\x7d' ∉ t.data → pythonFormat t args = .ok t) ∧
    (∀ (env : TranslateEnv) (st : AppState) (data : List (String × Json))
        (nlJ : Json) (cfg : ConfigRecord) (ts topicPrompt : String)
        (topicJ queryJ : Json) (tpl sparqlPrompt e : String),
        List.lookup "nl_query" data = some nlJ →
        jsonTruthy nlJ = true →
        st.global_config = some cfg →
        cfg.template_similarity = some ts →
        pythonFormat ts [("question", pyToStr nlJ)] = .ok topicPrompt →
        topicStage (env.topicLLM topicPrompt) = .ok (topicJ, queryJ) →
        cfg.template = some tpl →
        pythonFormat tpl (sparqlBindings st cfg queryJ) = .ok sparqlPrompt →
        composeFinal env.format_sql cfg.query_template cfg.query_template_no_topic
          (pyStripWs (env.sparqlLLM sparqlPrompt)) topicJ = .error e →
        translate_nl_to_new env st (some data) =
          ⟨.unhandled e, [topicPrompt, sparqlPrompt], []⟩) := by
  constructor
  · intro t args h1 h2
    exact pythonFormat_no_braces t args h1 h2
  · intro env st data nlJ cfg ts topicPrompt topicJ queryJ tpl sparqlPrompt e
      h0 h1 h2 h3 h4 h5 h6 h7 h8
    simp [translate_nl_to_new, h0, h1, h2, h3, h4, h5, h6, h7, h8]

/-- Witness for C3: a placeholder-free template formats to itself, and a
no-topic template referencing an unsupplied name aborts the run with no
execution. -/
theorem compose_missing_placeholder_behavior_witness :
    pythonFormat "CALL OUTER()" [("generated_sparql_query", "G")] =
      .ok "CALL OUTER()" ∧
    translate_nl_to_new envNone stK (some bodyC) =
      ⟨.unhandled "KeyError: missing_name",
       ["Classify: list partners", "Generate: rewritten"], []⟩ :=
  ⟨compose_missing_placeholder_behavior.1 "CALL OUTER()"
      [("generated_sparql_query", "G")] (by decide) (by decide),
   compose_missing_placeholder_behavior.2 envNone stK bodyC
      (.str "list partners") cfgK "Classify: \x7bquestion\x7d"
      "Classify: list partners" (.str "None") (.str "rewritten")
      "Generate: \x7bnl_query\x7d" "Generate: rewritten" "KeyError: missing_name"
      rfl rfl rfl rfl rfl rfl rfl rfl rfl⟩

/-- C5 counterexample: a completion that is valid JSON with exactly the
`topic` and `query` keys, wrapped in a ```` ```json ```` code fence, does
*not* yield the pair: the character-set `strip` leaves the residue `json`
before the payload and parsing fails. -/
theorem topicStage_json_fence_cex :
    jsonLoads "\x7b\"topic\": \"Sales\", \"query\": \"partners in Germany\"\x7d" =
      .ok (.obj [("topic", .str "Sales"), ("query", .str "partners in Germany")]) ∧
    topicStage
      "```json\n\x7b\"topic\": \"Sales\", \"query\": \"partners in Germany\"\x7d\n```" =
      .error "Expecting value" :=
  ⟨rfl, rfl⟩

/-- C5 (status: corrected): completions wrapped in fences whose characters
all belong to the stripped set (for example ```` ```python ```` fences)
are unwrapped and parsed to the `(topic, query)` pair; when the stripped
content does not parse, the handler raises before the SPARQL-generation
LLM call — that call is never made — but the failure escapes the handler
unhandled rather than being returned as an error response (see C1). -/
theorem topicStage_fence_behavior :
    (∀ (s : String) (fields : List (String × Json)) (topicJ queryJ : Json),
        s.data.head? = some '\x7b' → s.data.getLast? = some '\x7d' →
        jsonLoads s = .ok (.obj fields) →
        List.lookup "topic" fields = some topicJ →
        List.lookup "query" fields = some queryJ →
        topicStage ("```python\n" ++ s ++ "\n```") = .ok (topicJ, queryJ)) ∧
    (∀ (env : TranslateEnv) (st : AppState) (data : List (String × Json))
        (nlJ : Json) (cfg : ConfigRecord) (ts topicPrompt e : String),
        List.lookup "nl_query" data = some nlJ →
        jsonTruthy nlJ = true →
        st.global_config = some cfg →
        cfg.template_similarity = some ts →
        pythonFormat ts [("question", pyToStr nlJ)] = .ok topicPrompt →
        topicStage (env.topicLLM topicPrompt) = .error e →
        translate_nl_to_new env st (some data) =
          ⟨.unhandled e, [topicPrompt], []⟩) := by
  constructor
  · intro s fields topicJ queryJ hh hl hjson ht hq
    simp [topicStage, stripFence_wrapped s hh hl, hjson, ht, hq]
  · intro env st data nlJ cfg ts topicPrompt e h0 h1 h2 h3 h4 h5
    simp [translate_nl_to_new, h0, h1, h2, h3, h4, h5]

/-- Witness for C5: a `python`-fenced completion parses to its pair, and a
non-JSON completion aborts the run after the single topic-classification
LLM call. -/
theorem topicStage_fence_behavior_witness :
    topicStage ("```python\n" ++ "\x7b\"topic\": \"Sales\", \"query\": \"pg\"\x7d"
        ++ "\n```") = .ok (.str "Sales", .str "pg") ∧
    translate_nl_to_new envBad stC (some bodyC) =
      ⟨.unhandled "Expecting value", ["Classify: list partners"], []⟩ :=
  ⟨topicStage_fence_behavior.1 "\x7b\"topic\": \"Sales\", \"query\": \"pg\"\x7d"
      [("topic", .str "Sales"), ("query", .str "pg")] (.str "Sales") (.str "pg")
      rfl rfl rfl rfl rfl,
   topicStage_fence_behavior.2 envBad stC bodyC (.str "list partners") cfgC
      "Classify: \x7bquestion\x7d" "Classify: list partners" "Expecting value"
      rfl rfl rfl rfl rfl rfl⟩

/-- C6 (status: code_bug): on a fully successful load the three queries
run in the order ontology dump (CSV), property list (JSON), class list
(JSON), and the ontology and property fields hold their result sets; but
`global_classes` receives `result[0]` — the echoed class query text — not
the result-output component `result[2]` of its call. -/
theorem initData_classes_field_holds_query_text :
    (initData dbFull st0).2 =
      [("OQ", csvMime), ("PQ", jsonMime), ("CQ", jsonMime)] ∧
    (initData dbFull st0).1.global_ontology = some "ONTRES" ∧
    (initData dbFull st0).1.global_properties = some "PROPRES" ∧
    dbFull.sparql "CQ" jsonMime = .ok "CLSRES" ∧
    (initData dbFull st0).1.global_classes = some "CQ" ∧
    ("CQ" : String) ≠ "CLSRES" :=
  ⟨rfl, rfl, rfl, rfl, rfl, by decide⟩

/-- C7 counterexample: in the no-topic branch the composed statement is the
raw substituted template, not the formatter's output on it — for any
formatter that is not the identity the two differ. -/
theorem translate_noTopic_unformatted_cex :
    composeFinal fmtW (some "QT") (some "A \x7bgenerated_sparql_query\x7d B") "Q"
      (.str "None") = .ok "A Q B" ∧
    Except.map fmtW (pythonFormat "A \x7bgenerated_sparql_query\x7d B"
      [("generated_sparql_query", "Q")]) = .ok "FMT:A Q B" ∧
    ("A Q B" : String) ≠ "FMT:A Q B" :=
  ⟨rfl, rfl, by decide⟩

/-- C7 (status: corrected): the formatting step is applied to the
substituted outer template only in the topic-bearing branch; in the
no-topic branch the executed statement is the substituted template itself,
untouched by the formatter.  (Idempotence of the external `sql_formatter`
is a property of that third-party library, not established by this
repository's code.) -/
theorem translate_formats_only_topic_branch
    (env : TranslateEnv) (st : AppState) (data : List (String × Json))
    (nlJ : Json) (cfg : ConfigRecord) (ts topicPrompt : String)
    (topicJ queryJ : Json) (tpl sparqlPrompt : String)
    (h0 : List.lookup "nl_query" data = some nlJ)
    (h1 : jsonTruthy nlJ = true)
    (h2 : st.global_config = some cfg)
    (h3 : cfg.template_similarity = some ts)
    (h4 : pythonFormat ts [("question", pyToStr nlJ)] = .ok topicPrompt)
    (h5 : topicStage (env.topicLLM topicPrompt) = .ok (topicJ, queryJ))
    (h6 : cfg.template = some tpl)
    (h7 : pythonFormat tpl (sparqlBindings st cfg queryJ) = .ok sparqlPrompt) :
    (∀ (qtnt sub : String), isNoneStr topicJ = true →
        cfg.query_template_no_topic = some qtnt →
        pythonFormat qtnt
          [("generated_sparql_query", pyStripWs (env.sparqlLLM sparqlPrompt))] =
          .ok sub →
        (translate_nl_to_new env st (some data)).execCalls = [sub]) ∧
    (∀ (qt sub : String), isNoneStr topicJ = false →
        cfg.query_template = some qt →
        pythonFormat qt
          [("generated_sparql_query", pyStripWs (env.sparqlLLM sparqlPrompt)),
           ("topic", pyToStr topicJ)] = .ok sub →
        (translate_nl_to_new env st (some data)).execCalls =
          [env.format_sql sub]) := by
  constructor
  · intro qtnt sub hNone h8 h9
    have hcf : composeFinal env.format_sql cfg.query_template
        cfg.query_template_no_topic (pyStripWs (env.sparqlLLM sparqlPrompt))
        topicJ = .ok sub := by
      simp [composeFinal, hNone, h8, h9]
    cases hE : env.execSQL sub <;>
      simp [translate_nl_to_new, h0, h1, h2, h3, h4, h5, h6, h7, hcf, hE]
  · intro qt sub hTop h8 h9
    have hcf : composeFinal env.format_sql cfg.query_template
        cfg.query_template_no_topic (pyStripWs (env.sparqlLLM sparqlPrompt))
        topicJ = .ok (env.format_sql sub) := by
      simp [composeFinal, hTop, h8, h9, Except.map]
    cases hE : env.execSQL (env.format_sql sub) <;>
      simp [translate_nl_to_new, h0, h1, h2, h3, h4, h5, h6, h7, hcf, hE]

/-- Witness for C7: the no-topic run executes the unformatted substituted
template, the topic-bearing run executes the formatter's output. -/
theorem translate_formats_only_topic_branch_witness :
    (translate_nl_to_new envNone stC (some bodyC)).execCalls = ["CALL OUTER()"] ∧
    (translate_nl_to_new envTopic stC (some bodyC)).execCalls =
      ["FMT:SELECT Sales AS T, Q(GENQ)"] :=
  ⟨(translate_formats_only_topic_branch envNone stC bodyC (.str "list partners")
      cfgC "Classify: \x7bquestion\x7d" "Classify: list partners" (.str "None")
      (.str "rewritten") "Generate: \x7bnl_query\x7d" "Generate: rewritten"
      rfl rfl rfl rfl rfl rfl rfl rfl).1 "CALL OUTER()" "CALL OUTER()"
      rfl rfl rfl,
   (translate_formats_only_topic_branch envTopic stC bodyC (.str "list partners")
      cfgC "Classify: \x7bquestion\x7d" "Classify: list partners" (.str "Sales")
      (.str "rewritten") "Generate: \x7bnl_query\x7d" "Generate: rewritten"
      rfl rfl rfl rfl rfl rfl rfl rfl).2
      "SELECT \x7btopic\x7d AS T, Q(\x7bgenerated_sparql_query\x7d)"
      "SELECT Sales AS T, Q(GENQ)" rfl rfl rfl⟩

end KG
